import Mathlib

/-!
Verification development for the MindAnalyst browsing client
(frontend views: VideoDetail v1/v2, AuthorDetail v2, api module).

The JavaScript/Vue source is shallowly embedded: JSON values become an
inductive `Json`, JS truthiness is modelled explicitly, nullable fields
become `Option`, and the computed properties / event handlers of the
views become pure Lean functions over these types.  Strings are handled
as `List Char` so that all definitions evaluate by kernel reduction.
-/

namespace MindAnalyst

/-- A JSON value as stored in summary payloads (`json_data`, `short_json`). -/
inductive Json where
  | null
  | bool (b : Bool)
  | num (n : Int)
  | str (s : List Char)
  | arr (xs : List Json)
  | obj (fields : List (String × Json))

/-- JavaScript truthiness of a JSON value: `null`, `false`, `0` and the
empty string are falsy, everything else (including `[]` and `{}`) truthy. -/
def Json.truthy : Json → Bool
  | .null => false
  | .bool b => b
  | .num n => n ≠ 0
  | .str s => s ≠ []
  | .arr _ => true
  | .obj _ => true

/-- JS property access `j.k`: `undefined` (here `none`) unless `j` is an
object with field `k`; first binding wins. -/
def Json.get? : Json → String → Option Json
  | .obj fields, k => (fields.find? (fun p => p.1 = k)).map (·.2)
  | _, _ => none

/-- The `summary` record of the `get video` response:
`content`, `json_data`, `short_json`, `video_category`, each nullable. -/
structure Summary where
  content : Option (List Char)
  json_data : Option Json
  short_json : Option Json
  video_category : Option (List Char)

/-- JS truthiness of a nullable string: `null`/`undefined` and `""` are falsy. -/
def jsStr? : Option (List Char) → Option (List Char)
  | none => none
  | some s => if s = [] then none else some s

/-- `summaryBlocks` computed property (VideoDetail v2):
`json_data.blocks` when it is an array, `[]` otherwise. -/
def summaryBlocks (s : Option Summary) : List Json :=
  match s with
  | none => []
  | some sv =>
    match sv.json_data with
    | none => []
    | some j =>
      if j.truthy then
        match j.get? "blocks" with
        | some (Json.arr bs) => bs
        | _ => []
      else []

/-- One match of the regex `\[([^\]]+?)\]`: the captured tag, the index of
the opening bracket and the index just past the closing bracket. -/
structure BMatch where
  tag : List Char
  mstart : Nat
  mend : Nat
deriving DecidableEq

/-- Index of the first `]` in a character list, if any. -/
def idxOfClose (l : List Char) : Option Nat :=
  l.findIdx? (fun c => c = ']')

/-- Left-to-right scan of `content.matchAll(/\[([^\]]+?)\]/g)`.
At each position: an opening bracket followed by at least one non-`]`
character and a closing bracket yields a match and scanning resumes past
the closing bracket; otherwise the scan advances one character.  `fuel`
bounds the recursion (callers pass the list length, which suffices since
every step consumes at least one character). -/
def scanMatches : Nat → List Char → Nat → List BMatch
  | 0, _, _ => []
  | _ + 1, [], _ => []
  | fuel + 1, c :: rest, i =>
    if c = '[' then
      match idxOfClose rest with
      | some j =>
        if j = 0 then
          scanMatches fuel rest (i + 1)
        else
          { tag := rest.take j, mstart := i, mend := i + j + 2 } ::
            scanMatches fuel (rest.drop (j + 1)) (i + j + 2)
      | none => scanMatches fuel rest (i + 1)
    else
      scanMatches fuel rest (i + 1)

/-- All matches of the bracket-marker regex in `content`. -/
def findMatches (content : List Char) : List BMatch :=
  scanMatches content.length content 0

/-- One `{tag, text}` segment produced by `bracketBlocks`. -/
structure Seg where
  tag : List Char
  text : List Char
deriving DecidableEq

/-- JS `content.slice(a, b)` on characters. -/
def sliceChars (c : List Char) (a b : Nat) : List Char :=
  (c.drop a).take (b - a)

/-- JS `String.prototype.trim`: strip leading and trailing whitespace. -/
def trimChars (l : List Char) : List Char :=
  ((l.dropWhile Char.isWhitespace).reverse.dropWhile Char.isWhitespace).reverse

/-- The segment-building loop of `bracketBlocks`: for each match, the text
is the slice from just past its closing bracket to the start of the next
match (or the end of the content), trimmed. -/
def segsOf (content : List Char) : List BMatch → List Seg
  | [] => []
  | m :: rest =>
    let stop := match rest with
      | m2 :: _ => m2.mstart
      | [] => content.length
    { tag := m.tag, text := trimChars (sliceChars content m.mend stop) } ::
      segsOf content rest

/-- `bracketBlocks` computed property (VideoDetail v2): split `content`
at `[TAG]` markers into `{tag, text}` segments. -/
def bracketBlocks (content : Option (List Char)) : List Seg :=
  match jsStr? content with
  | none => []
  | some c =>
    let ms := findMatches c
    if ms = [] then [] else segsOf c ms

/-- What the summary panel of VideoDetail v2 renders: the `v-if` chain
`summaryBlocks.length` → `bracketBlocks.length` → `summary.content`,
inside an outer `v-if="summary"` whose `v-else` is the no-summary text. -/
inductive SummaryRender where
  | blocks (bs : List Json)
  | brackets (segs : List Seg)
  | rawContent (c : List Char)
  | emptyBody
  | noSummary

/-- The VideoDetail v2 summary panel as a function of the summary record. -/
def v2SummaryPanel (s : Option Summary) : SummaryRender :=
  match s with
  | none => .noSummary
  | some sv =>
    let bs := summaryBlocks (some sv)
    if bs.length ≠ 0 then .blocks bs
    else
      let br := bracketBlocks sv.content
      if br.length ≠ 0 then .brackets br
      else
        match jsStr? sv.content with
        | some c => .rawContent c
        | none => .emptyBody

/-- JS truthiness of a nullable JSON value. -/
def jsonTruthy : Option Json → Bool
  | none => false
  | some j => j.truthy

/-- `summaryNormalized` computed property (legacy VideoDetail):
`json_data.normalized || json_data` when `json_data` is truthy, else null. -/
def summaryNormalized (s : Option Summary) : Option Json :=
  match s with
  | none => none
  | some sv =>
    match sv.json_data with
    | none => none
    | some j =>
      if j.truthy then
        match j.get? "normalized" with
        | some n => if n.truthy then some n else some j
        | none => some j
      else none

/-- JS truthiness of `x.length` for a JSON value: non-empty array or
string; numbers/objects have no `length` (undefined, falsy). -/
def Json.lenTruthy : Json → Bool
  | .arr [] => false
  | .arr (_ :: _) => true
  | .str s => s ≠ []
  | _ => false

/-- The recognized-field sections that the legacy VideoDetail template
renders, in template order (`one_liner`, `key_points`, `principles`,
`actionable_guidelines`, `cognitive_warnings`, `case_studies`), following
each section's own `v-if` guard. -/
def legacySections (s : Option Summary) : List String :=
  match summaryNormalized s with
  | none => []
  | some n =>
    (if jsonTruthy (n.get? "one_liner") then ["one_liner"] else []) ++
    (if jsonTruthy (n.get? "key_points") then ["key_points"] else []) ++
    (if (n.get? "principles").any (fun v => v.truthy && v.lenTruthy) then
      ["principles"] else []) ++
    (if (n.get? "actionable_guidelines").any (fun v => v.truthy && v.lenTruthy) then
      ["actionable_guidelines"] else []) ++
    (if (n.get? "cognitive_warnings").any (fun v => v.truthy && v.lenTruthy) then
      ["cognitive_warnings"] else []) ++
    (if (n.get? "case_studies").any (fun v => v.truthy && v.lenTruthy) then
      ["case_studies"] else [])

/-- The legacy VideoDetail raw-content guard:
`v-if="summary.content && !summary.json_data"`. -/
def legacyShowsRaw (sv : Summary) : Bool :=
  (jsStr? sv.content).isSome && !jsonTruthy sv.json_data

/-- JS property read `counts[k]` on a tally object (a JSON-like map from
status value to count): `undefined` (`none`) when the key is absent. -/
def jsLookupNum (fields : List (String × Nat)) (k : String) : Option Nat :=
  (fields.find? (fun p => p.1 = k)).map (·.2)

/-- Vue `{{ ... }}` interpolation of a possibly-undefined number:
`toDisplayString` renders `null`/`undefined` as the empty string. -/
def vueDisplay : Option Nat → List Char
  | none => []
  | some n => (toString n).data

/-- The `author_status` rollup as consumed by AuthorDetail:
three tally maps plus a total. -/
structure StatusCounts where
  asr_status_counts : List (String × Nat)
  summary_status_counts : List (String × Nat)
  content_quality_counts : List (String × Nat)
  total_videos : Nat

/-- The count text the AuthorDetail header shows for one value of one
tally map (e.g. `{{ authorStatus.asr_status_counts.ready }}`). -/
def displayedCount (counts : List (String × Nat)) (k : String) : List Char :=
  vueDisplay (jsLookupNum counts k)

/-- A content item as rendered by the views (the fields the status tags
read, plus the title to witness independence from other fields). -/
structure ContentItem where
  title : List Char
  content_type : Option (List Char)
  asr_status : Option (List Char)
  summary_status : Option (List Char)
  content_quality : Option (List Char)
  using_fallback : Bool

/-- JS `v || d` on a nullable string: the default replaces `null`,
`undefined` and `""`. -/
def jsOrDefault (v : Option (List Char)) (d : List Char) : List Char :=
  match jsStr? v with
  | none => d
  | some s => s

/-- The ASR status value a view renders for an item
(`video.asr_status || 'pending'`, also the key v2 feeds into
`t('status.values.' + ...)`). -/
def renderedAsrStatus (it : ContentItem) : List Char :=
  jsOrDefault it.asr_status "pending".data

/-- The summary status value a view renders for an item. -/
def renderedSummaryStatus (it : ContentItem) : List Char :=
  jsOrDefault it.summary_status "pending".data

/-- The content-quality value a view renders for an item
(`video.content_quality || 'summary'`). -/
def renderedQuality (it : ContentItem) : List Char :=
  jsOrDefault it.content_quality "summary".data

/-- JS `n.toString()` for a non-negative integer. -/
def natChars (n : Nat) : List Char :=
  (toString n).data

/-- JS `s.padStart(2, '0')`: left-pad with zeros up to length 2. -/
def padStart2 (l : List Char) : List Char :=
  List.replicate (2 - l.length) '0' ++ l

/-- `formatTime` (VideoDetail): seconds by flooring `ms / 1000`, minutes
by flooring again, remainder seconds, both zero-padded, joined by `:`. -/
def formatTime (ms : Nat) : List Char :=
  let s := ms / 1000
  let m := s / 60
  let rs := s % 60
  padStart2 (natChars m) ++ ':' :: padStart2 (natChars rs)

/-- A transcript segment row (`start_time_ms`, `end_time_ms`, `text`). -/
structure Segment where
  start_time_ms : Nat
  end_time_ms : Nat
  text : List Char

/-- The timestamp line the transcript panel renders above a segment:
`{{ formatTime(seg.start_time_ms) }} - {{ formatTime(seg.end_time_ms) }}`. -/
def transcriptTimeLabel (seg : Segment) : List Char :=
  formatTime seg.start_time_ms ++ ' ' :: '-' :: ' ' :: formatTime seg.end_time_ms

/-- The argument a Vue click handler receives: a DOM `Event` when the
handler is bound plain (`@click="triggerResummarize"`), or an explicit
boolean (`@click="triggerResummarize(true)"`).  A missing argument takes
the declared default `false`, covered by `boolean false`. -/
inductive JsArg where
  | event
  | boolean (b : Bool)
deriving DecidableEq

/-- `includeFallback instanceof Event ? false : includeFallback`. -/
def includeFallbackFlag : JsArg → Bool
  | .event => false
  | .boolean b => b

/-- One request to the backend gateway (`api` module), with the payload
parts the claims inspect. -/
inductive ApiCall where
  | getVideo
  | getVideoPlayback
  | setVideoType (content_type : Option (List Char))
  | resummarizeVideo (include_fallback : Bool)
  | reprocessVideoAsr
  | getAuthor
  | getAuthorVideos
  | setAuthorType (author_type : Option (List Char))
  | regenerateReport
  | resummarizeAll (include_fallback : Bool)
  | resummarizePending
  | reprocessAuthorAsr
deriving DecidableEq

/-- Requests issued by VideoDetail `fetchData`: `getVideo`, then (only if
it succeeded) the playback request, whose own failure is caught inside. -/
def fetchVideoCalls (videoOk : Bool) : List ApiCall :=
  .getVideo :: (if videoOk then [.getVideoPlayback] else [])

/-- Requests issued by `saveContentType`: the set-type call, then — only
on its success — `await fetchData()`. -/
def saveContentTypeCalls (ct : Option (List Char)) (setOk videoOk : Bool) :
    List ApiCall :=
  .setVideoType ct :: (if setOk then fetchVideoCalls videoOk else [])

/-- Requests issued by `triggerResummarize` (VideoDetail): nothing when the
confirm dialog is declined, else exactly the one resummarize request. -/
def triggerResummarizeCalls (arg : JsArg) (confirmed : Bool) : List ApiCall :=
  if confirmed then [.resummarizeVideo (includeFallbackFlag arg)] else []

/-- Requests issued by `triggerReprocessAsr` (VideoDetail). -/
def triggerReprocessAsrCalls (confirmed : Bool) : List ApiCall :=
  if confirmed then [.reprocessVideoAsr] else []

/-- Requests issued by AuthorDetail `fetchData`:
`Promise.all([getAuthor, getAuthorVideos])`. -/
def fetchAuthorCalls : List ApiCall :=
  [.getAuthor, .getAuthorVideos]

/-- Requests issued by `saveAuthorType`: the set-type call, then — only on
its success — `await fetchData()`. -/
def saveAuthorTypeCalls (at_ : Option (List Char)) (setOk : Bool) :
    List ApiCall :=
  .setAuthorType at_ :: (if setOk then fetchAuthorCalls else [])

/-- Requests issued by `triggerRegenerateReport` (AuthorDetail). -/
def triggerRegenerateReportCalls (confirmed : Bool) : List ApiCall :=
  if confirmed then [.regenerateReport] else []

/-- Requests issued by `triggerResummarizeAll` (AuthorDetail). -/
def triggerResummarizeAllCalls (arg : JsArg) (confirmed : Bool) :
    List ApiCall :=
  if confirmed then [.resummarizeAll (includeFallbackFlag arg)] else []

/-- Requests issued by `triggerResummarizePending` (AuthorDetail). -/
def triggerResummarizePendingCalls (confirmed : Bool) : List ApiCall :=
  if confirmed then [.resummarizePending] else []

/-- Requests issued by AuthorDetail `triggerReprocessAsr`. -/
def triggerReprocessAuthorAsrCalls (confirmed : Bool) : List ApiCall :=
  if confirmed then [.reprocessAuthorAsr] else []

/-- Is a request an entity (or collection/playback) fetch, as opposed to a
mutation or job trigger? -/
def ApiCall.isFetch : ApiCall → Bool
  | .getVideo | .getVideoPlayback | .getAuthor | .getAuthorVideos => true
  | _ => false

/-- Number of requests in a trace satisfying a predicate. -/
def countCalls (trace : List ApiCall) (p : ApiCall → Bool) : Nat :=
  (trace.filter p).length

/-- Is a request the item-entity fetch? -/
def ApiCall.isGetVideo : ApiCall → Bool
  | .getVideo => true
  | _ => false

/-- Is a request the author-entity fetch? -/
def ApiCall.isGetAuthor : ApiCall → Bool
  | .getAuthor => true
  | _ => false

/-- The `get video` response body: the item, its current summary (nullable)
and its ordered transcript segments. -/
structure VideoResponse where
  video : ContentItem
  summary : Option Summary
  segments : List Segment

/-- The reactive state of VideoDetail that `fetchData` writes, plus the
list of user-facing alerts the run raised. -/
structure VideoViewState where
  video : Option ContentItem
  summary : Option Summary
  segments : List Segment
  playbackUrl : List Char
  loading : Bool
  userAlerts : List (List Char)

/-- Runs VideoDetail `fetchData` against given request outcomes.  The outer
try/catch logs to the console (no user alert); the inner try/catch around
the playback request likewise only warns, leaving `playbackUrl` empty. -/
def fetchDataRun (videoRes : Except (List Char) VideoResponse)
    (playbackRes : Except (List Char) (List Char)) : VideoViewState :=
  match videoRes with
  | .error _ =>
    { video := none, summary := none, segments := [], playbackUrl := [],
      loading := false, userAlerts := [] }
  | .ok r =>
    let url := match playbackRes with
      | .ok u => u
      | .error _ => []
    { video := some r.video, summary := r.summary, segments := r.segments,
      playbackUrl := url, loading := false, userAlerts := [] }

/-- The playback section's guard: `v-if="playbackUrl"`. -/
def playbackSectionShown (st : VideoViewState) : Bool :=
  st.playbackUrl ≠ []

/-- For each match, the boundary its segment text runs to: the start of
the next match, or the end of the content for the last match. -/
def nextStops (content : List Char) (ms : List BMatch) : List Nat :=
  (ms.drop 1).map (fun m => m.mstart) ++ [content.length]

/-- The spec's description of bracket-splitting, amended with trimming:
one `{tag, text}` segment per match in order, text the portion from
immediately after the marker to immediately before the next marker (or
end of string), with surrounding whitespace stripped. -/
def specSegsTrimmed (content : List Char) (ms : List BMatch) : List Seg :=
  (ms.zip (nextStops content ms)).map
    (fun p => { tag := p.1.tag, text := trimChars (sliceChars content p.1.mend p.2) })

/-- The claim's derivation of a timestamp: minutes = `⌊ms / 60000⌋`,
seconds = `⌊ms / 1000⌋ mod 60`, each zero-padded to two digits. -/
def specTimeChars (msOffset : Nat) : List Char :=
  padStart2 (natChars (msOffset / 60000)) ++ ':' :: padStart2 (natChars (msOffset / 1000 % 60))

/-- Fixture: a summary whose `json_data` is truthy but matches no
recognized shape (no `blocks`, no recognized normalized field), with raw
content present. -/
def sampleUnrecognized : Summary :=
  { content := some "hi".data
    json_data := some (.obj [("foo", .num 1)])
    short_json := none
    video_category := none }

/-- Fixture: a summary whose `json_data.blocks` is an empty array and
whose content carries a bracket marker. -/
def sampleEmptyBlocks : Summary :=
  { content := some "[a]b".data
    json_data := some (.obj [("blocks", .arr [])])
    short_json := none
    video_category := none }

/-- Fixture: a present summary record with no content, no `json_data` and
no `short_json`. -/
def sampleAllAbsent : Summary :=
  { content := none, json_data := none, short_json := none, video_category := none }

/-- Fixture: an item with `asr_status` absent and `summary_status`
`"blocked"`. -/
def sampleBlockedItem : ContentItem :=
  { title := "t".data
    content_type := none
    asr_status := none
    summary_status := some "blocked".data
    content_quality := none
    using_fallback := false }

/-- Fixture: a summary carrying only raw free-text content. -/
def sampleRawOnly : Summary :=
  { content := some "hi".data, json_data := none, short_json := none,
    video_category := none }

/-- Fixture: a summary whose `json_data.blocks` is a one-element array. -/
def sampleOneBlock : Summary :=
  { content := some "raw".data
    json_data := some (.obj [("blocks", .arr [.obj [("type", .str "core".data), ("text", .str "x".data)]])])
    short_json := none
    video_category := none }

/-- The segment-building loop realizes the spec's per-match description
(with trimming): each segment's text is the trimmed slice from its match's
end to the next match's start, or to the end of content for the last. -/
theorem segsOf_eq_specSegs (content : List Char) (ms : List BMatch) :
    segsOf content ms = specSegsTrimmed content ms := by
  induction ms with
  | nil => rfl
  | cons m rest ih =>
    cases rest with
    | nil => rfl
    | cons m2 rest2 =>
      simp only [segsOf, specSegsTrimmed, nextStops, List.drop_succ_cons,
        List.drop_zero, List.map_cons, List.cons_append, List.zip_cons_cons,
        List.map, List.cons.injEq, true_and, and_true, eq_self_iff_true] at *
      exact ih

/-- C1: the code trims each segment's text, so the claimed untrimmed
segmentation is not what `bracketBlocks` produces: on `"[a] x"` the
produced text is `"x"`, not the claimed `" x"`. -/
theorem C1_counterexample :
    bracketBlocks (some "[a] x".data) ≠ [{ tag := "a".data, text := " x".data }] := by
  decide

/-- C1 (amended): `bracketBlocks` splits `content` into one `{tag, text}`
segment per regex match in order, each text running from immediately after
its marker to immediately before the next marker (or end of string) and
then trimmed of surrounding whitespace; a string with no markers yields an
empty sequence; `"[intro]hello[body]world"` yields exactly
`{intro, hello}` and `{body, world}`. -/
theorem C1_amended :
    (∀ content : List Char,
      bracketBlocks (some content) = specSegsTrimmed content (findMatches content)) ∧
    bracketBlocks (some "[intro]hello[body]world".data) =
      [{ tag := "intro".data, text := "hello".data },
       { tag := "body".data, text := "world".data }] ∧
    (∀ content : List Char, findMatches content = [] →
      bracketBlocks (some content) = []) := by
  refine ⟨?_, by decide, ?_⟩
  · intro content
    by_cases hc : content = []
    · subst hc; rfl
    · simp only [bracketBlocks, jsStr?, hc, if_false, ite_false]
      by_cases hm : findMatches content = []
      · simp [hm, specSegsTrimmed, nextStops]
      · simp [hm, segsOf_eq_specSegs]
  · intro content hm
    by_cases hc : content = []
    · subst hc; rfl
    · simp [bracketBlocks, jsStr?, hc, hm]

/-- C1 witness: the no-marker branch at a concrete input. -/
theorem C1_witness :
    findMatches "x".data = [] ∧ bracketBlocks (some "x".data) = [] :=
  ⟨by decide, C1_amended.2.2 "x".data (by decide)⟩

/-- C2: the AuthorDetail header reads tally keys directly with no
defaulting, and Vue interpolates the resulting `undefined` as an empty
string — so a rollup that never observed `"fallback"` displays nothing for
it, not `0`. -/
theorem C2_counterexample :
    displayedCount [("ready", 3)] "fallback" = [] ∧
    displayedCount [("ready", 3)] "fallback" ≠ "0".data := by
  exact ⟨rfl, by decide⟩

/-- C2 (amended): for any rollup, a status value whose key is absent from
the tally map is displayed as the empty string (the raw `undefined`
interpolation), not as `0`; a present key's count is displayed verbatim.
This holds for each of the three tally maps of `StatusCounts`. -/
theorem C2_amended (st : StatusCounts) (k : String) :
    (jsLookupNum st.asr_status_counts k = none →
      displayedCount st.asr_status_counts k = []) ∧
    (jsLookupNum st.summary_status_counts k = none →
      displayedCount st.summary_status_counts k = []) ∧
    (jsLookupNum st.content_quality_counts k = none →
      displayedCount st.content_quality_counts k = []) ∧
    (∀ n, jsLookupNum st.asr_status_counts k = some n →
      displayedCount st.asr_status_counts k = natChars n) := by
  refine ⟨fun h => ?_, fun h => ?_, fun h => ?_, fun n h => ?_⟩ <;>
    simp [displayedCount, vueDisplay, natChars, h]

/-- C2 witness: applied to a concrete rollup missing every key. -/
theorem C2_witness :
    jsLookupNum (StatusCounts.mk [] [] [] 0).asr_status_counts "ready" = none ∧
    displayedCount (StatusCounts.mk [] [] [] 0).asr_status_counts "ready" = [] :=
  ⟨rfl, (C2_amended (StatusCounts.mk [] [] [] 0) "ready").1 rfl⟩

/-- C3: in the legacy VideoDetail, raw content is gated on
`summary.content && !summary.json_data`, so a record whose truthy
`json_data` matches no recognized shape (rules 1-3 produce nothing) and
whose raw content is present renders no free text at all. -/
theorem C3_counterexample :
    summaryBlocks (some sampleUnrecognized) = [] ∧
    bracketBlocks sampleUnrecognized.content = [] ∧
    legacySections (some sampleUnrecognized) = [] ∧
    jsStr? sampleUnrecognized.content = some "hi".data ∧
    legacyShowsRaw sampleUnrecognized = false :=
  ⟨rfl, rfl, rfl, rfl, rfl⟩

/-- C3 (amended): when the blocks and bracket rules produce nothing and
raw content is present, the v2 view renders the raw content as
preformatted free text; the legacy view does so only when `json_data` is
additionally absent/falsy. -/
theorem C3_amended (sv : Summary) (c : List Char)
    (hc : jsStr? sv.content = some c)
    (h1 : (summaryBlocks (some sv)).length = 0)
    (h2 : (bracketBlocks sv.content).length = 0) :
    v2SummaryPanel (some sv) = .rawContent c ∧
    legacyShowsRaw sv = !jsonTruthy sv.json_data := by
  constructor
  · simp [v2SummaryPanel, h1, h2, hc]
  · simp [legacyShowsRaw, hc, Option.isSome]

/-- C3 witness: a record with only raw content, rendered by both views. -/
theorem C3_witness :
    jsStr? sampleRawOnly.content = some "hi".data ∧
    (summaryBlocks (some sampleRawOnly)).length = 0 ∧
    (bracketBlocks sampleRawOnly.content).length = 0 ∧
    v2SummaryPanel (some sampleRawOnly) = .rawContent "hi".data ∧
    legacyShowsRaw sampleRawOnly = true :=
  ⟨rfl, rfl, rfl, (C3_amended sampleRawOnly "hi".data rfl rfl rfl).1,
    by
      have h := (C3_amended sampleRawOnly "hi".data rfl rfl rfl).2
      simpa using h⟩

/-- C4: on the success path (`true` arguments: confirm accepted, request
succeeded), each classification-tag set issues exactly one re-fetch of the
owning entity (`getVideo` resp. `getAuthor`), while none of the five
job-triggering operations issues any fetch at all. -/
theorem C4_refetch_protocol :
    (∀ ct videoOk, countCalls (saveContentTypeCalls ct true videoOk)
      ApiCall.isGetVideo = 1) ∧
    (∀ at_, countCalls (saveAuthorTypeCalls at_ true)
      ApiCall.isGetAuthor = 1) ∧
    (∀ a, countCalls (triggerResummarizeCalls a true) ApiCall.isFetch = 0) ∧
    (∀ a, countCalls (triggerResummarizeAllCalls a true) ApiCall.isFetch = 0) ∧
    countCalls (triggerRegenerateReportCalls true) ApiCall.isFetch = 0 ∧
    countCalls (triggerResummarizePendingCalls true) ApiCall.isFetch = 0 ∧
    countCalls (triggerReprocessAsrCalls true) ApiCall.isFetch = 0 ∧
    countCalls (triggerReprocessAuthorAsrCalls true) ApiCall.isFetch = 0 := by
  refine ⟨fun ct videoOk => ?_, fun at_ => ?_, fun a => ?_, fun a => ?_,
    rfl, rfl, rfl, rfl⟩
  · cases videoOk <;> rfl
  · rfl
  · cases a <;> rfl
  · cases a <;> rfl

/-- C5: each of the three per-item status fields is rendered verbatim from
the record, with `null`/`undefined`/`""` replaced by the vocabulary
default (`pending`, `pending`, `summary`) and each field independent of
the others; the item with `asr_status` absent and `summary_status`
`"blocked"` renders `asr: pending`, `summary: blocked`. -/
theorem C5_status_defaults (it : ContentItem) :
    (it.asr_status = none → renderedAsrStatus it = "pending".data) ∧
    (it.summary_status = none → renderedSummaryStatus it = "pending".data) ∧
    (it.content_quality = none → renderedQuality it = "summary".data) ∧
    (∀ v, it.asr_status = some v → v ≠ [] → renderedAsrStatus it = v) ∧
    (∀ v, it.summary_status = some v → v ≠ [] → renderedSummaryStatus it = v) ∧
    (∀ v, it.content_quality = some v → v ≠ [] → renderedQuality it = v) ∧
    (∀ it2 : ContentItem, it2.asr_status = it.asr_status →
      renderedAsrStatus it2 = renderedAsrStatus it) ∧
    renderedAsrStatus sampleBlockedItem = "pending".data ∧
    renderedSummaryStatus sampleBlockedItem = "blocked".data := by
  refine ⟨fun h => ?_, fun h => ?_, fun h => ?_, fun v hv hne => ?_,
    fun v hv hne => ?_, fun v hv hne => ?_, fun it2 h => ?_, rfl, rfl⟩ <;>
    simp [renderedAsrStatus, renderedSummaryStatus, renderedQuality,
      jsOrDefault, jsStr?, *]

/-- C5 witness: the theorem applied at the blocked-item fixture. -/
theorem C5_witness :
    sampleBlockedItem.asr_status = none ∧
    renderedAsrStatus sampleBlockedItem = "pending".data ∧
    renderedSummaryStatus sampleBlockedItem = "blocked".data :=
  ⟨rfl, (C5_status_defaults sampleBlockedItem).1 rfl,
    (C5_status_defaults sampleBlockedItem).2.2.2.2.1 "blocked".data rfl (by decide)⟩

/-- C6: the blocks branch is guarded by `v-if="summaryBlocks.length"`, so
an empty `json_data.blocks` array does not take priority — on a payload
with `blocks = []` and bracketed content, the bracket rule renders
instead of the (empty) typed-block list. -/
theorem C6_counterexample :
    (Json.obj [("blocks", .arr [])]).get? "blocks" = some (.arr []) ∧
    v2SummaryPanel (some sampleEmptyBlocks) =
      .brackets [{ tag := "a".data, text := "b".data }] ∧
    v2SummaryPanel (some sampleEmptyBlocks) ≠ .blocks [] := by
  refine ⟨rfl, rfl, fun h => ?_⟩
  rw [show v2SummaryPanel (some sampleEmptyBlocks) =
    .brackets [{ tag := "a".data, text := "b".data }] from rfl] at h
  exact SummaryRender.noConfusion h

/-- C6 (amended): for every payload whose `json_data.blocks` is a
non-empty array, the rendered output is exactly that array of typed
blocks — same count, same order — and this branch takes priority over the
bracket-splitting and raw-content rules. -/
theorem C6_amended (sv : Summary) (j : Json) (bs : List Json)
    (hj : sv.json_data = some j) (hb : j.get? "blocks" = some (.arr bs))
    (hne : bs ≠ []) :
    summaryBlocks (some sv) = bs ∧ v2SummaryPanel (some sv) = .blocks bs := by
  have htr : j.truthy = true := by
    cases j <;> first | rfl | simp [Json.get?] at hb
  have hsb : summaryBlocks (some sv) = bs := by
    simp [summaryBlocks, hj, htr, hb]
  have hlen : bs.length ≠ 0 := fun h => hne (List.length_eq_zero.mp h)
  refine ⟨hsb, ?_⟩
  simp [v2SummaryPanel, hsb, hlen]

/-- C6 witness: a one-element blocks array is rendered as that block. -/
theorem C6_witness :
    summaryBlocks (some sampleOneBlock) =
      [.obj [("type", .str "core".data), ("text", .str "x".data)]] ∧
    v2SummaryPanel (some sampleOneBlock) =
      .blocks [.obj [("type", .str "core".data), ("text", .str "x".data)]] :=
  C6_amended sampleOneBlock (.obj [("blocks",
    .arr [.obj [("type", .str "core".data), ("text", .str "x".data)]])])
    [.obj [("type", .str "core".data), ("text", .str "x".data)]]
    rfl rfl (by simp)

/-- C7: the no-summary placeholder is shown only when the summary record
itself is absent; a present record whose `content`, `json_data` and
`short_json` are all null renders an empty summary body instead of the
"no summary available" state. -/
theorem C7_counterexample :
    jsStr? sampleAllAbsent.content = none ∧
    sampleAllAbsent.json_data = none ∧
    sampleAllAbsent.short_json = none ∧
    v2SummaryPanel (some sampleAllAbsent) = .emptyBody ∧
    v2SummaryPanel (some sampleAllAbsent) ≠ .noSummary := by
  refine ⟨rfl, rfl, rfl, rfl, fun h => ?_⟩
  rw [show v2SummaryPanel (some sampleAllAbsent) = .emptyBody from rfl] at h
  exact SummaryRender.noConfusion h

/-- C7 (amended): an absent summary payload reports the no-summary state;
a present record with no content and no `json_data` renders an empty body.
Both branches are total — nothing throws. -/
theorem C7_amended :
    v2SummaryPanel none = .noSummary ∧
    (∀ sv : Summary, jsStr? sv.content = none → sv.json_data = none →
      v2SummaryPanel (some sv) = .emptyBody) := by
  refine ⟨rfl, fun sv hc hj => ?_⟩
  simp [v2SummaryPanel, summaryBlocks, bracketBlocks, hc, hj]

/-- C7 witness: the all-absent record renders the empty body. -/
theorem C7_witness :
    jsStr? sampleAllAbsent.content = none ∧
    v2SummaryPanel (some sampleAllAbsent) = .emptyBody :=
  ⟨rfl, C7_amended.2 sampleAllAbsent rfl rfl⟩

/-- C8: when the item fetch succeeds and the playback-link request fails,
the view state still holds the item, summary and segments, the playback
affordance is omitted (`playbackUrl` stays empty) and no user-facing
alert is raised. -/
theorem C8_playback_failure (r : VideoResponse) (e : List Char) :
    fetchDataRun (.ok r) (.error e) =
      { video := some r.video, summary := r.summary, segments := r.segments,
        playbackUrl := [], loading := false, userAlerts := [] } ∧
    playbackSectionShown (fetchDataRun (.ok r) (.error e)) = false := by
  exact ⟨rfl, by simp [playbackSectionShown, fetchDataRun]⟩

/-- C9: the transcript line header is `MM:SS - MM:SS` (start and end
offsets), with no enclosing square brackets — it is not of the claimed
`[MM:SS] text` form. -/
theorem C9_counterexample :
    transcriptTimeLabel (Segment.mk 65000 90000 "hi".data) = "01:05 - 01:30".data ∧
    ("01:05 - 01:30".data).head? ≠ some '[' := by
  exact ⟨by decide, by decide⟩

/-- C9 (amended): each timestamp is derived exactly as the claim says —
minutes `⌊ms / 60000⌋`, seconds `⌊ms / 1000⌋ mod 60`, zero-padded to two
digits, no hour component — but the rendered line is
`MM:SS - MM:SS` over the segment's start and end offsets, without
brackets. -/
theorem C9_amended (msOffset : Nat) (seg : Segment) :
    formatTime msOffset = specTimeChars msOffset ∧
    transcriptTimeLabel seg =
      specTimeChars seg.start_time_ms ++ ' ' :: '-' :: ' ' ::
        specTimeChars seg.end_time_ms := by
  have key : ∀ n : Nat, formatTime n = specTimeChars n := by
    intro n
    simp only [formatTime, specTimeChars]
    rw [Nat.div_div_eq_div_mul]
  refine ⟨key msOffset, ?_⟩
  rw [transcriptTimeLabel, key, key]

/-- C10: a trigger invoked with a DOM `Event` (plain-button click path)
sends `include_fallback = false`; only an explicit boolean `true`
argument yields a request with `include_fallback = true`, for both the
single-item and the bulk resummarize triggers. -/
theorem C10_fallback_flag :
    triggerResummarizeCalls .event true = [.resummarizeVideo false] ∧
    triggerResummarizeAllCalls .event true = [.resummarizeAll false] ∧
    (∀ (a : JsArg) (c : Bool),
      (ApiCall.resummarizeVideo true ∈ triggerResummarizeCalls a c ↔
        (a = .boolean true ∧ c = true))) ∧
    (∀ (a : JsArg) (c : Bool),
      (ApiCall.resummarizeAll true ∈ triggerResummarizeAllCalls a c ↔
        (a = .boolean true ∧ c = true))) := by
  refine ⟨rfl, rfl, fun a c => ?_, fun a c => ?_⟩ <;>
    rcases a with _ | b <;> cases c <;>
      simp [triggerResummarizeCalls, triggerResummarizeAllCalls,
        includeFallbackFlag]

end MindAnalyst
